import Mathlib

/-!
Verification of the WorkHive backend access-control mechanism.

Shallow embedding, translated from the JavaScript source:
* `src/utils/createUserToken.js` — issues a signed credential from a user
  record, payload fields id, nombre, rol.
* `src/security/sessionChecker.js` — the role-gate middleware: extracts the
  bearer token, verifies it, checks the profile claim against the allowed
  list, resolves the principal, attaches identity context or fails.
* `src/utils/isValidToken.js` — returns false when the token is in the
  revoked set, or when cryptographic verification fails or the token is
  expired; true otherwise.
* `src/controllers/usuariosController.js` — the logout route (which adds the
  token to the module-level revoked set after checking it is still valid) and
  the verify-token route (read-only on the revoked set).

JSON Web Tokens are modelled abstractly: a token is either a signed payload
together with the secret it was signed with, or a malformed string.
Verification succeeds exactly when the signing secret matches the
verification secret and the expiry lies strictly in the future, mirroring
the jsonwebtoken library (expired when the clock reaches exp). Payload
fields that a given issuer may leave absent (rol, profile) are Options,
since the JavaScript objects simply lack the key in that case.
-/

/-- Decoded JWT payload. `createUserToken` sets id, nombre and rol and never
sets profile, so both role-like fields are optional; exp is the expiry
instant stamped by the signing call. -/
structure TokenPayload where
  id : String
  nombre : String
  rol : Option String
  profile : Option String
  exp : Nat
deriving DecidableEq

/-- A bearer credential: either a payload signed with some secret, or a
string that does not decode as a JWT at all. -/
inductive Token where
  | signed (payload : TokenPayload) (secret : String)
  | malformed (raw : String)
deriving DecidableEq

/-- jwt.verify: succeeds iff the token is well formed, was signed with the
verification secret, and is not yet expired (now < exp); returns the decoded
payload. A failure models the exception jsonwebtoken throws. -/
def verify (t : Token) (secret : String) (now : Nat) : Option TokenPayload :=
  match t with
  | Token.malformed _ => none
  | Token.signed p sec =>
      if sec = secret ∧ now < p.exp then some p else none

/-- Persisted user record, as returned by usuariosRepository.getOne. Only the
fields the access-control code touches are kept. -/
structure Usuario where
  mongoId : String
  nombre : String
  rol : String
deriving DecidableEq

/-- The user store: getOne by id, null when the document does not exist. -/
def UserStore : Type := String → Option Usuario

/-- createUserToken (src/utils/createUserToken.js): signs the payload
with fields id, nombre, rol taken from the user record. The profile key is
not part of the payload, hence none. expiresAt is the absolute expiry
instant the expiresIn option resolves to. -/
def createUserToken (usuario : Usuario) (secret : String) (expiresAt : Nat) : Token :=
  Token.signed
    { id := usuario.mongoId
      nombre := usuario.nombre
      rol := some usuario.rol
      profile := none
      exp := expiresAt }
    secret

/-- Outcome of one sessionChecker invocation, i.e. which continuation the
middleware takes:
* sessionRequired — next(new SessionRequiredError(...)), no token on a
  mandatory route;
* forbidden — next(new ForbiddenError(...)), profile not allowed or
  principal not found;
* invalidCredential — the catch branch forwards the verification error via
  next(err): malformed, wrong-secret or expired token;
* success — next() with req.tokenData and req.isAdminUser attached, so the
  downstream handler runs with that identity context (tokenData = none,
  isAdminUser = false is the anonymous pass-through). -/
inductive Outcome where
  | sessionRequired
  | forbidden
  | invalidCredential
  | success (tokenData : Option TokenPayload) (isAdminUser : Bool)
deriving DecidableEq

/-- allowedProfiles.includes(tokenData.profile) from the JavaScript: the
call sites always pass an array of strings, so when the profile key is
absent (undefined) the membership test is false. -/
def profileIncluded (allowedProfiles : List String) : Option String → Bool
  | none => false
  | some p => decide (p ∈ allowedProfiles)

/-- sessionChecker (src/security/sessionChecker.js, lines 6-46). Inputs are
the per-route configuration (allowedProfiles, isMandatory), the process
environment (store, secret), the request time and the extracted bearer token
(req.token, none when absent). The revoked set is NOT an input: the source
middleware never consults it. -/
def sessionChecker (allowedProfiles : List String) (isMandatory : Bool)
    (store : UserStore) (secret : String) (now : Nat)
    (token : Option Token) : Outcome :=
  match token with
  | none =>
      if isMandatory then Outcome.sessionRequired
      else Outcome.success none false
  | some t =>
      match verify t secret now with
      | none => Outcome.invalidCredential
      | some tokenData =>
          if ¬ profileIncluded allowedProfiles tokenData.profile then
            Outcome.forbidden
          else
            match store tokenData.id with
            | none => Outcome.forbidden
            | some _ =>
                Outcome.success (some tokenData)
                  (decide (tokenData.profile = some "admin"))

/-- isValidToken with the verification step abstracted, to make the
evaluation order explicit: the revoked-set membership test runs first and
short-circuits to false; only otherwise is the verifier consulted, and the
result is truthiness of the decoded payload (the decoded object is truthy,
an exception yields false through the catch). -/
def isValidTokenWith (verifier : Token → Option TokenPayload)
    (token : Token) (invalidTokens : List Token) : Bool :=
  if token ∈ invalidTokens then false
  else (verifier token).isSome

/-- isValidToken (src/utils/isValidToken.js, lines 10-26): false when the
token is in the revoked set, otherwise the result of jwt.verify against the
process secret, with any exception (bad signature, malformed, expired)
caught and turned into false. -/
def isValidToken (token : Token) (invalidTokens : List Token)
    (secret : String) (now : Nat) : Bool :=
  isValidTokenWith (fun t => verify t secret now) token invalidTokens

/-- Result of the POST /usuarios/logout route: the HTTP status of the
response and the revoked set after the call. -/
structure LogoutResult where
  status : Nat
  invalidTokens : List Token
deriving DecidableEq

/-- POST /usuarios/logout (src/controllers/usuariosController.js, lines
406-418): reject with 401 when isValidToken is already false (revoked,
unverifiable or expired), otherwise add the token to the module-level
revoked set (JavaScript Set.add: no effect when already present) and answer
200. -/
def logout (token : Token) (invalidTokens : List Token)
    (secret : String) (now : Nat) : LogoutResult :=
  if ¬ isValidToken token invalidTokens secret now then
    { status := 401, invalidTokens := invalidTokens }
  else
    { status := 200, invalidTokens := invalidTokens.insert token }

/-- POST /usuarios/verify-token (same controller): 400 without a token,
401 when isValidToken is false or the token is in the revoked set, 200
otherwise; the revoked set is only read, never written. -/
def verifyTokenRoute (token : Option Token) (invalidTokens : List Token)
    (secret : String) (now : Nat) : Nat × List Token :=
  match token with
  | none => (400, invalidTokens)
  | some t =>
      if ¬ isValidToken t invalidTokens secret now ∨ t ∈ invalidTokens then
        (401, invalidTokens)
      else (200, invalidTokens)

/-- The operations of the system that can run while the process holds the
revoked set, each carrying its own request data and request time. The role
gate has no access to the set at all; its parameters are kept to state
that its execution leaves the set untouched. -/
inductive Op where
  | logoutOp (t : Token) (now : Nat)
  | verifyTokenOp (t : Option Token) (now : Nat)
  | gateOp (allowedProfiles : List String) (isMandatory : Bool)
      (store : UserStore) (now : Nat) (t : Option Token)

/-- Effect of one operation on the process-wide revoked set. -/
def applyOp (secret : String) (s : List Token) : Op → List Token
  | Op.logoutOp t now => (logout t s secret now).invalidTokens
  | Op.verifyTokenOp t now => (verifyTokenRoute t s secret now).2
  | Op.gateOp _ _ _ _ _ => s

/-- Revoked set after a whole sequence of operations. -/
def applyOps (secret : String) (ops : List Op) (s : List Token) : List Token :=
  ops.foldl (applyOp secret) s

/-- Concrete fixture: a user record as stored in MongoDB. -/
def sampleUser : Usuario :=
  { mongoId := "u1", nombre := "Ana", rol := "administrador" }

/-- Concrete fixture: a store holding exactly sampleUser. -/
def sampleStore : UserStore :=
  fun i => if i = "u1" then some sampleUser else none

/-- Concrete fixture: a payload that does carry a profile claim accepted by
the route configuration used in the controllers. -/
def profiledPayload : TokenPayload :=
  { id := "u1", nombre := "Ana", rol := some "usuario"
    profile := some "administrador", exp := 100 }

/-- Concrete fixture: profiledPayload signed with the process secret. -/
def profiledToken : Token :=
  Token.signed profiledPayload "sec"

/-- Helper: a token that sits in the revoked set is reported unusable by
isValidToken, whatever the clock says. -/
theorem isValidToken_of_mem (t : Token) (s : List Token) (secret : String)
    (now : Nat) (h : t ∈ s) : isValidToken t s secret now = false := by
  simp [isValidToken, isValidTokenWith, h]

/-- Helper: a verification failure never heals as the clock moves forward;
expiry is monotone and signature mismatch is time-independent. -/
theorem verify_none_mono (t : Token) (secret : String) (now now2 : Nat)
    (hle : now ≤ now2) (h : verify t secret now = none) :
    verify t secret now2 = none := by
  cases t with
  | malformed raw => simp [verify]
  | signed p sec =>
      simp only [verify] at h ⊢
      split at h
      · exact absurd h (by simp)
      · next hc =>
          rw [if_neg]
          intro hc2
          exact hc ⟨hc2.1, lt_of_le_of_lt hle hc2.2⟩

/-- Helper: after any single logout call on token t, isValidToken t is false
at every later instant: either the call added t to the revoked set, or t was
already unusable (revoked, unverifiable or expired) and stays so. -/
theorem isValidToken_after_logout (t : Token) (s : List Token)
    (secret : String) (now now2 : Nat) (hle : now ≤ now2) :
    isValidToken t (logout t s secret now).invalidTokens secret now2 = false := by
  by_cases hv : isValidToken t s secret now
  · have hset : (logout t s secret now).invalidTokens = s.insert t := by
      simp [logout, hv]
    rw [hset]
    exact isValidToken_of_mem _ _ _ _ (List.mem_insert_self t s)
  · have hset : (logout t s secret now).invalidTokens = s := by
      simp [logout, hv]
    rw [hset]
    by_cases hm : t ∈ s
    · exact isValidToken_of_mem _ _ _ _ hm
    · cases hvv : verify t secret now with
      | some p =>
          exact absurd (by simp [isValidToken, isValidTokenWith, hm, hvv]) hv
      | none =>
          simp [isValidToken, isValidTokenWith, hm,
            verify_none_mono t secret now now2 hle hvv]

/-- Helper: no operation of the system ever removes a token from the
revoked set. -/
theorem mem_applyOp (secret : String) (s : List Token) (op : Op) (t : Token)
    (h : t ∈ s) : t ∈ applyOp secret s op := by
  cases op with
  | logoutOp t2 now =>
      simp only [applyOp, logout]
      split
      · exact h
      · exact List.mem_insert_of_mem h
  | verifyTokenOp t2 now =>
      cases t2 with
      | none => exact h
      | some t3 =>
          simp only [applyOp, verifyTokenRoute]
          split <;> exact h
  | gateOp a m st now tok => exact h

/-- Claim C1, counterexample: a credential that is a member of the revoked
set but still verifies, is unexpired, carries an allowed profile claim and
resolves to an existing principal is not rejected by the role gate:
sessionChecker succeeds (the request proceeds to the downstream handler)
and the outcome is not InvalidCredential. The middleware never reads the
revoked set, so membership in it cannot influence the outcome. -/
theorem revoked_credential_passes_gate_cex :
    profiledToken ∈ [profiledToken] ∧
    sessionChecker ["administrador", "usuario"] true sampleStore "sec" 50
        (some profiledToken) = Outcome.success (some profiledPayload) false ∧
    sessionChecker ["administrador", "usuario"] true sampleStore "sec" 50
        (some profiledToken) ≠ Outcome.invalidCredential := by
  refine ⟨List.mem_singleton_self _, by decide, by decide⟩

/-- Claim C1, amended: sessionChecker does not consult the revoked set, so a
revoked credential that verifies against the secret, is unexpired, whose
profile claim is in the allowed list and whose subject id resolves to an
existing user passes the role gate with a success outcome; membership in
the revoked set is only visible to the isValidToken-based operations
(logout and verify-token), where it forces unusability. -/
theorem gate_outcome_ignores_revoked_set (invalidTokens : List Token)
    (allowedProfiles : List String) (isMandatory : Bool) (store : UserStore)
    (secret : String) (now : Nat) (t : Token) (td : TokenPayload) (u : Usuario)
    (hrev : t ∈ invalidTokens) (hv : verify t secret now = some td)
    (hp : profileIncluded allowedProfiles td.profile = true)
    (hu : store td.id = some u) :
    sessionChecker allowedProfiles isMandatory store secret now (some t) =
      Outcome.success (some td) (decide (td.profile = some "admin")) ∧
    isValidToken t invalidTokens secret now = false := by
  constructor
  · simp [sessionChecker, hv, hp, hu]
  · exact isValidToken_of_mem t invalidTokens secret now hrev

/-- Witness for the amended claim C1, at the concrete revoked credential. -/
theorem gate_outcome_ignores_revoked_set_witness :
    sessionChecker ["administrador", "usuario"] true sampleStore "sec" 50
        (some profiledToken) = Outcome.success (some profiledPayload)
          (decide (profiledPayload.profile = some "admin")) ∧
    isValidToken profiledToken [profiledToken] "sec" 50 = false :=
  gate_outcome_ignores_revoked_set [profiledToken] ["administrador", "usuario"]
    true sampleStore "sec" 50 profiledToken profiledPayload sampleUser
    (List.mem_singleton_self _) (by decide) (by decide) (by decide)

/-- Claim C2, code bug: a credential issued by createUserToken for the user
record with rol administrador verifies and is unexpired at the request
time, its role is in the allowed list the user routes configure, and its
subject id resolves in the store — yet sessionChecker answers Forbidden
rather than succeeding, because the payload carries the role under the key
rol while the gate tests the absent key profile (and compares it to the
label admin, which no issued credential ever carries either). -/
theorem created_token_rejected_by_gate :
    verify (createUserToken sampleUser "sec" 100) "sec" 50 =
      some { id := "u1", nombre := "Ana", rol := some "administrador"
             profile := none, exp := 100 } ∧
    "administrador" ∈ ["administrador", "usuario"] ∧
    sampleStore "u1" = some sampleUser ∧
    sessionChecker ["administrador", "usuario"] true sampleStore "sec" 50
        (some (createUserToken sampleUser "sec" 100)) = Outcome.forbidden := by
  decide

/-- Claim C3: whenever a presented credential fails verification — it is
malformed, signed with a different secret, or expired — sessionChecker
takes the catch branch and forwards the verification error, i.e. yields the
InvalidCredential outcome, for every route configuration, including
optional routes (isMandatory = false); an expired credential is never
treated as an anonymous pass-through. -/
theorem gate_unverifiable_credential_invalid (allowedProfiles : List String)
    (isMandatory : Bool) (store : UserStore) (secret : String) (now : Nat)
    (t : Token) (h : verify t secret now = none) :
    sessionChecker allowedProfiles isMandatory store secret now (some t) =
      Outcome.invalidCredential := by
  simp [sessionChecker, h]

/-- Witness for claim C3: the profiled credential expired (exp = 100) at
time 200, presented on an optional route. -/
theorem gate_unverifiable_credential_invalid_witness :
    sessionChecker [] false sampleStore "sec" 200 (some profiledToken) =
      Outcome.invalidCredential :=
  gate_unverifiable_credential_invalid [] false sampleStore "sec" 200
    profiledToken (by decide)

/-- Claim C4: a verified, unexpired credential whose subject id does not
resolve to a user in the store makes sessionChecker yield Forbidden — the
same constructor as a role mismatch — and never a distinct unknown-user
outcome; this holds whether or not the profile claim is allowed. -/
theorem gate_unknown_principal_forbidden (allowedProfiles : List String)
    (isMandatory : Bool) (store : UserStore) (secret : String) (now : Nat)
    (t : Token) (td : TokenPayload)
    (hv : verify t secret now = some td) (hs : store td.id = none) :
    sessionChecker allowedProfiles isMandatory store secret now (some t) =
      Outcome.forbidden := by
  simp only [sessionChecker, hv]
  by_cases hp : profileIncluded allowedProfiles td.profile
  · simp [hp, hs]
  · simp [hp]

/-- Witness for claim C4: the profiled credential against an empty store. -/
theorem gate_unknown_principal_forbidden_witness :
    sessionChecker ["administrador"] true (fun _ => none) "sec" 50
        (some profiledToken) = Outcome.forbidden :=
  gate_unknown_principal_forbidden ["administrador"] true (fun _ => none)
    "sec" 50 profiledToken profiledPayload (by decide) rfl

/-- Claim C5: with no bearer credential and isMandatory = true, the outcome
is SessionRequired for every allowed-roles configuration, store, secret and
request time. -/
theorem gate_no_token_mandatory_session_required (allowedProfiles : List String)
    (store : UserStore) (secret : String) (now : Nat) :
    sessionChecker allowedProfiles true store secret now none =
      Outcome.sessionRequired := rfl

/-- Claim C6: with no bearer credential and isMandatory = false, the gate
succeeds with the null identity context (tokenData = none, isAdminUser =
false), i.e. the downstream handler is reached anonymously. -/
theorem gate_no_token_optional_anonymous (allowedProfiles : List String)
    (store : UserStore) (secret : String) (now : Nat) :
    sessionChecker allowedProfiles false store secret now none =
      Outcome.success none false := rfl

/-- Claim C7: isValidToken returns false exactly when the token is in the
revoked set or verification against the secret fails (bad signature,
malformed, or expired), and true otherwise; as a total function it never
throws — the source wraps everything in a try/catch that converts any
exception to false. -/
theorem isValidToken_false_iff (t : Token) (s : List Token) (secret : String)
    (now : Nat) :
    isValidToken t s secret now = false ↔
      t ∈ s ∨ verify t secret now = none := by
  by_cases hm : t ∈ s
  · simp [isValidToken, isValidTokenWith, hm]
  · cases hv : verify t secret now <;>
      simp [isValidToken, isValidTokenWith, hm, hv]

/-- Claim C8: the logout operation is idempotent on the revoked set — a
second logout with the same token (at any later request time) leaves the
set exactly as the first one did — and isValidToken reports the token
unusable both after the first call and after the second. -/
theorem logout_idempotent (t : Token) (s : List Token) (secret : String)
    (now now2 : Nat) (hle : now ≤ now2) :
    (logout t (logout t s secret now).invalidTokens secret now2).invalidTokens =
        (logout t s secret now).invalidTokens ∧
    isValidToken t (logout t s secret now).invalidTokens secret now = false ∧
    isValidToken t
        (logout t (logout t s secret now).invalidTokens secret now2).invalidTokens
        secret now2 = false := by
  have h2 : isValidToken t (logout t s secret now).invalidTokens secret now2 = false :=
    isValidToken_after_logout t s secret now now2 hle
  have hgen : ∀ (s2 : List Token), isValidToken t s2 secret now2 = false →
      (logout t s2 secret now2).invalidTokens = s2 := by
    intro s2 hfalse
    simp [logout, hfalse]
  have hset :
      (logout t (logout t s secret now).invalidTokens secret now2).invalidTokens =
        (logout t s secret now).invalidTokens := hgen _ h2
  refine ⟨hset, isValidToken_after_logout t s secret now now le_rfl, ?_⟩
  rw [hset]
  exact h2

/-- Witness for claim C8 at a concrete token, the empty revoked set and
request times 50 and 60. -/
theorem logout_idempotent_witness :
    (logout profiledToken (logout profiledToken [] "sec" 50).invalidTokens
        "sec" 60).invalidTokens =
      (logout profiledToken [] "sec" 50).invalidTokens ∧
    isValidToken profiledToken
        (logout profiledToken [] "sec" 50).invalidTokens "sec" 50 = false ∧
    isValidToken profiledToken
        (logout profiledToken (logout profiledToken [] "sec" 50).invalidTokens
          "sec" 60).invalidTokens "sec" 60 = false :=
  logout_idempotent profiledToken [] "sec" 50 60 (by decide)

/-- Claim C9: revocation is terminal within the process lifetime — once a
token is in the revoked set, running any sequence of system operations
(logout calls, verify-token calls, role-gate invocations) leaves it in the
set, and isValidToken keeps answering false at every request time. -/
theorem revocation_terminal (secret : String) (ops : List Op) (s : List Token)
    (t : Token) (now : Nat) (h : t ∈ s) :
    t ∈ applyOps secret ops s ∧
    isValidToken t (applyOps secret ops s) secret now = false := by
  have hmem : ∀ (ops2 : List Op) (s2 : List Token), t ∈ s2 →
      t ∈ applyOps secret ops2 s2 := by
    intro ops2
    induction ops2 with
    | nil => intro s2 h2; exact h2
    | cons op rest ih =>
        intro s2 h2
        exact ih _ (mem_applyOp secret s2 op t h2)
  exact ⟨hmem ops s h, isValidToken_of_mem t _ secret now (hmem ops s h)⟩

/-- Witness for claim C9: a revoked token survives a logout of another
request, a verify-token call and a gate invocation, and stays unusable. -/
theorem revocation_terminal_witness :
    profiledToken ∈ applyOps "sec"
        [Op.logoutOp profiledToken 50, Op.verifyTokenOp (some profiledToken) 55,
          Op.gateOp ["administrador"] true sampleStore 60 (some profiledToken)]
        [profiledToken] ∧
    isValidToken profiledToken
        (applyOps "sec"
          [Op.logoutOp profiledToken 50, Op.verifyTokenOp (some profiledToken) 55,
            Op.gateOp ["administrador"] true sampleStore 60 (some profiledToken)]
          [profiledToken]) "sec" 70 = false :=
  revocation_terminal "sec"
    [Op.logoutOp profiledToken 50, Op.verifyTokenOp (some profiledToken) 55,
      Op.gateOp ["administrador"] true sampleStore 60 (some profiledToken)]
    [profiledToken] profiledToken 70 (List.mem_singleton_self _)

/-- Claim C10: in isValidToken the revoked-set membership test runs before
the verification step, so for a token in the revoked set the result is
false for every possible verifier — whatever the signing secret, the
well-formedness of the token, or its expiry would say. -/
theorem revoked_short_circuits_verification
    (verifier : Token → Option TokenPayload) (t : Token) (s : List Token)
    (h : t ∈ s) : isValidTokenWith verifier t s = false := by
  simp [isValidTokenWith, h]

/-- Witness for claim C10: even a verifier that accepts every token cannot
make a revoked token usable. -/
theorem revoked_short_circuits_verification_witness :
    isValidTokenWith (fun _ => some profiledPayload) profiledToken
        [profiledToken] = false :=
  revoked_short_circuits_verification (fun _ => some profiledPayload)
    profiledToken [profiledToken] (List.mem_singleton_self _)
